import Mathlib

set_option linter.unusedVariables false

/-!
Shallow embedding of `src/main.py` (a Telegram bot relaying messages to the
Moonshot "Kimi K2" chat-completion API) and verification of the relay
contract: the classification of HTTP outcomes in `call_kimi_k2`, the guard in
`handle_message`, and the startup checks in `main`.
-/

namespace KimiBot

/-- A JSON value, as produced by `resp.json()` in Python: the universe of
dict / list / str / number / bool / None values a parsed body can be. -/
inductive Json where
  | null : Json
  | bool (b : Bool) : Json
  | num (q : Rat) : Json
  | str (s : String) : Json
  | arr (elems : List Json) : Json
  | obj (fields : List (String × Json)) : Json

/-- Python subscript `value["key"]` with a string key: succeeds only on a
dict that has the key; a `KeyError` or `TypeError` is modelled as `none`. -/
def pySubscriptStr : Json → String → Option Json
  | .obj fields, key => fields.lookup key
  | _, _ => none

/-- Python subscript `value[i]` with an integer index: succeeds on a list
with enough elements, and also on a string (Python string indexing yields a
one-character string); everything else raises, modelled as `none`. -/
def pySubscriptNat : Json → Nat → Option Json
  | .arr elems, i => elems.get? i
  | .str s, i => (s.data.get? i).map (fun c => Json.str (String.mk [c]))
  | _, _ => none

/-- The expression `data["choices"][0]["message"]["content"]` evaluated in
the success path of `call_kimi_k2` (main.py line 110); `none` models any
exception raised while evaluating it (which line 111 catches). -/
def extractContent (data : Json) : Option Json :=
  (pySubscriptStr data "choices").bind fun choices =>
    (pySubscriptNat choices 0).bind fun first =>
      (pySubscriptStr first "message").bind fun msg =>
        pySubscriptStr msg "content"

/-- `MOONSHOT_BASE_URL` (main.py line 28). -/
def MOONSHOT_BASE_URL : String := "https://api.moonshot.ai/v1"

/-- `KIMI_MODEL` (main.py line 32). -/
def KIMI_MODEL : String := "kimi-k2-0711-preview"

/-- The URL `call_kimi_k2` posts to (main.py line 44). -/
def requestUrl : String := MOONSHOT_BASE_URL ++ "/chat/completions"

/-- The fixed system instruction (main.py lines 56-59). -/
def systemPrompt : String :=
  "You are an AI assistant inside a Telegram bot. " ++
    "Reply in short, clear Hinglish (Hindi + English mix)."

/-- The JSON payload of the outbound POST (main.py lines 51-68). -/
def buildPayload (user_message : String) : Json :=
  .obj [
    ("model", .str KIMI_MODEL),
    ("messages", .arr [
      .obj [("role", .str "system"), ("content", .str systemPrompt)],
      .obj [("role", .str "user"), ("content", .str user_message)]]),
    ("max_tokens", .num 512),
    ("temperature", .num (7 / 10))]

/-- Apology returned when `requests.post` itself raises (main.py line 75). -/
def connectApology : String :=
  "Moonshot API se connect nahi ho pa raha 😅. Internet ya API service check karo."

/-- Apology returned for HTTP 401/403 (main.py lines 91-94); the f-string
interpolates the status code. -/
def authApology (status : Nat) : String :=
  "Moonshot API key ya billing me problem lag rahi hai " ++
    "(HTTP " ++ toString status ++ "). Dashboard me API key / billing check karo."

/-- Apology returned for HTTP 429 (main.py lines 97-100). -/
def rateLimitApology : String :=
  "Moonshot API limit cross ho gayi (429). " ++
    "Thodi der baad try karo ya usage/billing badhao."

/-- Apology returned for any other non-ok status (main.py lines 102-105). -/
def otherHttpApology (status : Nat) : String :=
  "Moonshot API se error aa gaya (HTTP " ++ toString status ++ "). " ++
    "Key, model name ya billing check karo."

/-- Apology returned when the success body cannot be read (main.py line 113). -/
def unexpectedApology : String :=
  "Moonshot se ajeeb response aaya 😅. Thodi der baad try karo."

/-- Message of the `RuntimeError` raised when `MOONSHOT_API_KEY` is unset
(main.py line 42). -/
def missingKeyError : String := "MOONSHOT_API_KEY env var set nahi hai."

/-- Message of the `RuntimeError` raised when `TELEGRAM_BOT_TOKEN` is unset
(main.py line 160). -/
def missingTokenError : String := "TELEGRAM_BOT_TOKEN env var set nahi hai."

/-- Fallback reply used by `handle_message` when `call_kimi_k2` raises
(main.py lines 148-151). -/
def backendApology : String :=
  "Backend me kuch error aa gaya 😅\nThodi der baad dobara try kar lena."

/-- The outcome of the `requests.post` call as observed by `call_kimi_k2`:
either the request raised (timeout, connection refused, DNS failure, ...),
or a response arrived carrying a status code, the raw body text
(`resp.text`) and, when `resp.json()` succeeds, the parsed JSON body
(`none` models a body that is not valid JSON). -/
inductive HttpOutcome where
  | exc : HttpOutcome
  | response (status : Nat) (rawText : String) (body : Option Json) : HttpOutcome

/-- `requests.Response.ok`: true iff the status code is below 400. -/
def respOk (status : Nat) : Bool := status < 400

/-- A log record emitted by `call_kimi_k2`: the `logger.exception` call of
line 74, the `logger.error` call of lines 84-88 (status plus the parsed
error body, when the body parsed), or the `logger.exception` call of
line 112 (which carries `resp.text`). -/
inductive LogEvent where
  | requestFailed : LogEvent
  | apiError (status : Nat) (errJson : Option Json) : LogEvent
  | unexpectedResponse (rawText : String) : LogEvent

/-- Everything observable about one call of `call_kimi_k2`: the returned
value — or, as `.error`, the message of a raised `RuntimeError` — the log
records emitted, and whether an outbound HTTP request was attempted. -/
structure CallResult where
  result : Except String Json
  logs : List LogEvent
  httpAttempted : Bool

/-- Shallow embedding of `call_kimi_k2` (main.py lines 37-113).
`apiKeySet` stands for the truthiness of `MOONSHOT_API_KEY`; `outcome`
stands for what the network produced for this call.  The Python function
returns `data["choices"][0]["message"]["content"]` without checking that it
is a string, so the success value is a `Json`. -/
def call_kimi_k2 (apiKeySet : Bool) (user_message : String) (user_id : Option Int)
    (outcome : HttpOutcome) : CallResult :=
  if !apiKeySet then
    { result := .error missingKeyError, logs := [], httpAttempted := false }
  else
    match outcome with
    | .exc =>
        { result := .ok (.str connectApology), logs := [.requestFailed],
          httpAttempted := true }
    | .response status rawText body =>
        if !respOk status then
          if status = 401 ∨ status = 403 then
            { result := .ok (.str (authApology status)),
              logs := [.apiError status body], httpAttempted := true }
          else if status = 429 then
            { result := .ok (.str rateLimitApology),
              logs := [.apiError status body], httpAttempted := true }
          else
            { result := .ok (.str (otherHttpApology status)),
              logs := [.apiError status body], httpAttempted := true }
        else
          match body with
          | some data =>
              match extractContent data with
              | some v => { result := .ok v, logs := [], httpAttempted := true }
              | none =>
                  { result := .ok (.str unexpectedApology),
                    logs := [.unexpectedResponse rawText], httpAttempted := true }
          | none =>
              { result := .ok (.str unexpectedApology),
                logs := [.unexpectedResponse rawText], httpAttempted := true }

/-- The `text` attribute of a Telegram message (`None` when absent). -/
structure Message where
  text : Option String

/-- An inbound Telegram update as `handle_message` reads it: the optional
message and the id of `effective_user` (when present). -/
structure Update where
  message : Option Message
  effective_user : Option Int

/-- An observable action of `handle_message`, in order: the inbound
`logger.info` of line 142, an outbound HTTP request to the provider, the
`logger.exception` of line 147, or a `reply_text` send. -/
inductive Action where
  | logInbound (user_id : Option Int) (text : String) : Action
  | httpCall : Action
  | logBackendError : Action
  | reply (v : Json) : Action

/-- Shallow embedding of `handle_message` (main.py lines 135-153) as the
ordered list of observable actions it performs, given the HTTP outcome the
network would produce for its provider call.  An update without a message
or whose text is `None` or `""` is falsy in the guard of line 136. -/
def handle_message (apiKeySet : Bool) (outcome : HttpOutcome) (u : Update) :
    List Action :=
  match u.message with
  | none => []
  | some msg =>
      match msg.text with
      | none => []
      | some t =>
          if t = "" then []
          else
            let uid := u.effective_user
            let c := call_kimi_k2 apiKeySet t uid outcome
            [Action.logInbound uid t]
              ++ (if c.httpAttempted then [Action.httpCall] else [])
              ++ (match c.result with
                  | .ok v => [Action.reply v]
                  | .error _ =>
                      [Action.logBackendError, Action.reply (.str backendApology)])

/-- How the process start ends: a `RuntimeError` that propagates out of
`main` (the process exits non-zero before polling ever starts), or entry
into `application.run_polling()`, from which point chat updates are
received and processed. -/
inductive StartupResult where
  | fatal (msg : String) : StartupResult
  | polling : StartupResult

/-- Shallow embedding of `main` (main.py lines 158-171): only
`TELEGRAM_BOT_TOKEN` is checked before the handlers are registered and
polling starts; `MOONSHOT_API_KEY` is not consulted here. -/
def main (telegramTokenSet : Bool) (moonshotKeySet : Bool) : StartupResult :=
  if !telegramTokenSet then .fatal missingTokenError
  else .polling

/-- `startsWith p l`: `p` is an initial segment of `l`. -/
def startsWith : List Char → List Char → Bool
  | [], _ => true
  | _ :: _, [] => false
  | p :: ps, c :: cs => p == c && startsWith ps cs

/-- `occursIn pat l`: `pat` occurs contiguously somewhere in `l`. -/
def occursIn (pat : List Char) : List Char → Bool
  | [] => pat.isEmpty
  | c :: rest => startsWith pat (c :: rest) || occursIn pat rest

/-- `pat` occurs contiguously in `s`. -/
def strContainsSub (s pat : String) : Bool := occursIn pat.data s.data

/-- Lookup of `choices[0].message.content` following the spec's expected
success-body shape (`{ choices: [ { message: { content: ... } } ] }`):
object and array steps only, as the spec describes the path. -/
def specContentAt (body : Json) : Option Json :=
  (pySubscriptStr body "choices").bind fun choices =>
    (match choices with
     | Json.arr elems => elems.get? 0
     | _ => none).bind fun first =>
      (pySubscriptStr first "message").bind fun msg =>
        pySubscriptStr msg "content"

/-- The reply text a given HTTP outcome carries when it is a successful,
well-formed completion response: `none` for transport failures, non-ok
statuses, unparseable bodies and bodies without the expected field. -/
def successContent : HttpOutcome → Option Json
  | .response status _ (some body) =>
      if respOk status then extractContent body else none
  | _ => none

/-- A minimal well-formed provider success body whose
`choices[0].message.content` is `content`. -/
def mkProviderBody (content : String) : Json :=
  .obj [("choices", .arr [.obj [("message", .obj [("content", .str content)])]])]

/-! Helper lemmas shared by the claim theorems. -/

lemma append_ne_empty (a b : String) (h : a ≠ "") : a ++ b ≠ "" := by
  intro he
  apply h
  have hl : a.length + b.length = 0 := by
    have := congrArg String.length he
    simpa using this
  have ha : a.length = 0 := by omega
  cases a with
  | mk data =>
      cases data with
      | nil => rfl
      | cons c cs => simp [String.length] at ha

lemma authApology_ne_empty (st : Nat) : authApology st ≠ "" := by
  unfold authApology
  exact append_ne_empty _ _ (append_ne_empty _ _ (append_ne_empty _ _ (by decide)))

lemma otherHttpApology_ne_empty (st : Nat) : otherHttpApology st ≠ "" := by
  unfold otherHttpApology
  exact append_ne_empty _ _ (append_ne_empty _ _ (append_ne_empty _ _ (by decide)))

lemma extractContent_eq_specContentAt (data : Json) :
    extractContent data = specContentAt data := by
  unfold extractContent specContentAt
  cases h : pySubscriptStr data "choices" with
  | none => rfl
  | some c =>
      cases c with
      | null => rfl
      | bool b => rfl
      | num q => rfl
      | arr elems => rfl
      | obj fields => rfl
      | str s =>
          simp only [Option.some_bind, pySubscriptNat]
          cases s.data.get? 0 with
          | none => rfl
          | some ch => rfl

/-- Case analysis of `call_kimi_k2` with the key configured: the call
returns either the extracted reply of a successful well-formed response, or
one of the five fixed apology strings. -/
lemma call_kimi_k2_cases (t : String) (uid : Option Int) (o : HttpOutcome) :
    (∃ v, successContent o = some v ∧ (call_kimi_k2 true t uid o).result = .ok v)
    ∨ (successContent o = none ∧
        ((call_kimi_k2 true t uid o).result = .ok (.str connectApology)
         ∨ (∃ st, (call_kimi_k2 true t uid o).result = .ok (.str (authApology st)))
         ∨ (call_kimi_k2 true t uid o).result = .ok (.str rateLimitApology)
         ∨ (∃ st, (call_kimi_k2 true t uid o).result = .ok (.str (otherHttpApology st)))
         ∨ (call_kimi_k2 true t uid o).result = .ok (.str unexpectedApology))) := by
  cases o with
  | exc => exact Or.inr ⟨rfl, Or.inl rfl⟩
  | response status raw body =>
      by_cases hok : respOk status = true
      · cases body with
        | none =>
            refine Or.inr ⟨rfl, Or.inr (Or.inr (Or.inr (Or.inr ?_)))⟩
            simp [call_kimi_k2, hok]
        | some data =>
            cases hx : extractContent data with
            | none =>
                refine Or.inr ⟨?_, Or.inr (Or.inr (Or.inr (Or.inr ?_)))⟩
                · simp [successContent, hok, hx]
                · simp [call_kimi_k2, hok, hx]
            | some v =>
                refine Or.inl ⟨v, ?_, ?_⟩
                · simp [successContent, hok, hx]
                · simp [call_kimi_k2, hok, hx]
      · have hok' : respOk status = false := by simpa using hok
        have hsc : successContent (HttpOutcome.response status raw body) = none := by
          cases body with
          | none => rfl
          | some data => simp [successContent, hok']
        refine Or.inr ⟨hsc, ?_⟩
        by_cases h13 : status = 401 ∨ status = 403
        · refine Or.inr (Or.inl ⟨status, ?_⟩)
          simp [call_kimi_k2, hok', h13]
        · by_cases h29 : status = 429
          · subst h29
            refine Or.inr (Or.inr (Or.inl ?_))
            simp [call_kimi_k2, hok', h13]
          · refine Or.inr (Or.inr (Or.inr (Or.inl ⟨status, ?_⟩)))
            simp [call_kimi_k2, hok', h13, h29]

/-! The claims. -/

/-- C1 counterexample: with `TELEGRAM_BOT_TOKEN` set but `MOONSHOT_API_KEY`
unset, `main` does not fail at startup — it reaches `run_polling`, so chat
updates are received and processed.  The claim that the absence of either
required environment variable is fatal at startup is therefore false. -/
theorem C1_counterexample : main true false = StartupResult.polling := rfl

/-- C1 (amended): a missing `TELEGRAM_BOT_TOKEN` is fatal at startup with a
descriptive error before any update is processed; a missing
`MOONSHOT_API_KEY` is not checked at startup — polling starts, and the
failure surfaces per message: `call_kimi_k2` raises a `RuntimeError`,
which `handle_message` catches and converts into a generic apology reply
(no outbound HTTP call is made). -/
theorem C1_amended (k : Bool) (t : String) (uid : Option Int) (o : HttpOutcome)
    (ht : t ≠ "") :
    main false k = StartupResult.fatal missingTokenError
    ∧ main true false = StartupResult.polling
    ∧ (call_kimi_k2 false t uid o).result = .error missingKeyError
    ∧ handle_message false o { message := some { text := some t }, effective_user := uid }
        = [Action.logInbound uid t, Action.logBackendError,
           Action.reply (.str backendApology)] := by
  refine ⟨rfl, rfl, rfl, ?_⟩
  simp [handle_message, call_kimi_k2, ht]

/-- Witness for C1 (amended) at concrete inputs. -/
theorem C1_amended_witness :
    main false true = StartupResult.fatal missingTokenError
    ∧ main true false = StartupResult.polling
    ∧ (call_kimi_k2 false "hi" none HttpOutcome.exc).result = .error missingKeyError
    ∧ handle_message false HttpOutcome.exc
        { message := some { text := some "hi" }, effective_user := none }
        = [Action.logInbound none "hi", Action.logBackendError,
           Action.reply (.str backendApology)] :=
  C1_amended true "hi" none HttpOutcome.exc (by decide)

/-- C2 counterexample: for the non-empty input "hi" and a 200 response whose
`choices[0].message.content` is the empty string, `call_kimi_k2` returns the
empty string — not a non-empty one, as the claim states. -/
theorem C2_counterexample :
    (call_kimi_k2 true "hi" none
        (HttpOutcome.response 200 "" (some (mkProviderBody "")))).result
      = .ok (.str "") := rfl

/-- C2 (amended): for every non-empty input text, with the provider key
configured, `call_kimi_k2` returns a value without raising; the returned
value can only be the empty string when the provider's successful response
itself carried `choices[0].message.content = ""` (which is then relayed
verbatim) — every apology branch returns a non-empty string. -/
theorem C2_amended (t : String) (uid : Option Int) (o : HttpOutcome) (ht : t ≠ "") :
    ∃ v, (call_kimi_k2 true t uid o).result = .ok v
      ∧ (v = .str "" → successContent o = some (Json.str "")) := by
  rcases call_kimi_k2_cases t uid o with ⟨v, hv, hr⟩ | ⟨hsc, hr⟩
  · exact ⟨v, hr, fun he => he ▸ hv⟩
  · rcases hr with hr | ⟨st, hr⟩ | hr | ⟨st, hr⟩ | hr
    · exact ⟨_, hr, fun he => absurd (Json.str.inj he) (by decide)⟩
    · exact ⟨_, hr, fun he => absurd (Json.str.inj he) (authApology_ne_empty st)⟩
    · exact ⟨_, hr, fun he => absurd (Json.str.inj he) (by decide)⟩
    · exact ⟨_, hr, fun he => absurd (Json.str.inj he) (otherHttpApology_ne_empty st)⟩
    · exact ⟨_, hr, fun he => absurd (Json.str.inj he) (by decide)⟩

/-- Witness for C2 (amended) at concrete inputs. -/
theorem C2_amended_witness :
    ∃ v, (call_kimi_k2 true "hi" none
            (HttpOutcome.response 200 "" (some (mkProviderBody "")))).result = .ok v
      ∧ (v = .str "" →
          successContent (HttpOutcome.response 200 "" (some (mkProviderBody "")))
            = some (Json.str "")) :=
  C2_amended "hi" none (HttpOutcome.response 200 "" (some (mkProviderBody ""))) (by decide)

/-- C3: with the provider credential configured, `call_kimi_k2` returns a
value for every input text and every HTTP outcome — no exception reaches
the caller — and whenever the outcome is not a successful well-formed
completion, the returned value is one of the fixed apology strings. -/
theorem C3_no_raise (t : String) (uid : Option Int) (o : HttpOutcome) :
    ∃ v, (call_kimi_k2 true t uid o).result = .ok v
      ∧ (successContent o = none →
          v = .str connectApology
          ∨ (∃ st, v = .str (authApology st))
          ∨ v = .str rateLimitApology
          ∨ (∃ st, v = .str (otherHttpApology st))
          ∨ v = .str unexpectedApology) := by
  rcases call_kimi_k2_cases t uid o with ⟨v, hv, hr⟩ | ⟨hsc, hr⟩
  · exact ⟨v, hr, fun he => absurd (he ▸ hv) (by simp)⟩
  · rcases hr with hr | ⟨st, hr⟩ | hr | ⟨st, hr⟩ | hr
    · exact ⟨_, hr, fun _ => Or.inl rfl⟩
    · exact ⟨_, hr, fun _ => Or.inr (Or.inl ⟨st, rfl⟩)⟩
    · exact ⟨_, hr, fun _ => Or.inr (Or.inr (Or.inl rfl))⟩
    · exact ⟨_, hr, fun _ => Or.inr (Or.inr (Or.inr (Or.inl ⟨st, rfl⟩)))⟩
    · exact ⟨_, hr, fun _ => Or.inr (Or.inr (Or.inr (Or.inr rfl)))⟩

/-- C4: for every non-empty input text and a 2xx response whose JSON body
has `choices[0].message.content` equal to the string `R`, `call_kimi_k2`
returns exactly `R`, unmodified. -/
theorem C4_success_verbatim (t : String) (uid : Option Int) (st : Nat)
    (raw : String) (data : Json) (R : String) (ht : t ≠ "")
    (h2xx : 200 ≤ st ∧ st < 300) (hc : specContentAt data = some (Json.str R)) :
    (call_kimi_k2 true t uid (HttpOutcome.response st raw (some data))).result
      = .ok (Json.str R) := by
  have hx : extractContent data = some (Json.str R) :=
    (extractContent_eq_specContentAt data).trans hc
  have hok : respOk st = true := by
    simp only [respOk, decide_eq_true_eq]
    omega
  simp [call_kimi_k2, hok, hx]

/-- Witness for C4 at concrete inputs. -/
theorem C4_success_verbatim_witness :
    (call_kimi_k2 true "hi" none
        (HttpOutcome.response 200 "raw" (some (mkProviderBody "R")))).result
      = .ok (Json.str "R") :=
  C4_success_verbatim "hi" none 200 "raw" (mkProviderBody "R") "R"
    (by decide) (by omega) rfl

/-- C5: for every input text, a 401 response yields the credential/billing
guidance string, which mentions "401", "API key" and "billing"; likewise a
403 response yields the same guidance with "403"; no exception escapes. -/
theorem C5_auth_guidance (t : String) (uid : Option Int) (raw : String)
    (body : Option Json) :
    ((call_kimi_k2 true t uid (HttpOutcome.response 401 raw body)).result
        = .ok (.str (authApology 401))
      ∧ strContainsSub (authApology 401) "401" = true
      ∧ strContainsSub (authApology 401) "API key" = true
      ∧ strContainsSub (authApology 401) "billing" = true)
    ∧ ((call_kimi_k2 true t uid (HttpOutcome.response 403 raw body)).result
        = .ok (.str (authApology 403))
      ∧ strContainsSub (authApology 403) "403" = true) :=
  ⟨⟨rfl, rfl, rfl, rfl⟩, rfl, rfl⟩

/-- C6: for every input text, a 429 response yields the rate-limit guidance
string, which references the limit and differs from the 401 guidance. -/
theorem C6_rate_limit (t : String) (uid : Option Int) (raw : String)
    (body : Option Json) :
    (call_kimi_k2 true t uid (HttpOutcome.response 429 raw body)).result
      = .ok (.str rateLimitApology)
    ∧ strContainsSub rateLimitApology "limit" = true
    ∧ strContainsSub rateLimitApology "429" = true
    ∧ rateLimitApology ≠ authApology 401 :=
  ⟨rfl, rfl, rfl, by decide⟩

/-- C7: for every input text, when the HTTP request itself fails (timeout,
connection refused, DNS failure, ... — any raised exception), `call_kimi_k2`
returns the generic connectivity apology and raises nothing; the failure is
logged. -/
theorem C7_transport (t : String) (uid : Option Int) :
    (call_kimi_k2 true t uid HttpOutcome.exc).result = .ok (.str connectApology)
    ∧ (call_kimi_k2 true t uid HttpOutcome.exc).logs = [LogEvent.requestFailed] :=
  ⟨rfl, rfl⟩

/-- C8: for every input text and a 2xx response whose parsed body lacks the
expected field at `choices[0].message.content`, `call_kimi_k2` returns the
fixed unexpected-response apology — a constant independent of the raw body
text — while the raw body text goes to the log record only. -/
theorem C8_malformed (t : String) (uid : Option Int) (st : Nat) (raw : String)
    (data : Json) (h2xx : 200 ≤ st ∧ st < 300)
    (hc : specContentAt data = none) :
    (call_kimi_k2 true t uid (HttpOutcome.response st raw (some data))).result
      = .ok (.str unexpectedApology)
    ∧ (call_kimi_k2 true t uid (HttpOutcome.response st raw (some data))).logs
      = [LogEvent.unexpectedResponse raw] := by
  have hx : extractContent data = none :=
    (extractContent_eq_specContentAt data).trans hc
  have hok : respOk st = true := by
    simp only [respOk, decide_eq_true_eq]
    omega
  constructor <;> simp [call_kimi_k2, hok, hx]

/-- Witness for C8 at concrete inputs: a 200 response whose body is an
object without a `choices` field. -/
theorem C8_malformed_witness :
    (call_kimi_k2 true "hi" none
        (HttpOutcome.response 200 "raw-body" (some (Json.obj [])))).result
      = .ok (.str unexpectedApology)
    ∧ (call_kimi_k2 true "hi" none
        (HttpOutcome.response 200 "raw-body" (some (Json.obj [])))).logs
      = [LogEvent.unexpectedResponse "raw-body"] :=
  C8_malformed "hi" none 200 "raw-body" (Json.obj []) (by omega) rfl

/-- C9: for every update whose message is absent, or whose text is absent
or empty, `handle_message` performs no action at all: no inbound log, no
outbound HTTP call, no reply. -/
theorem C9_guard (k : Bool) (o : HttpOutcome) (u : Update)
    (h : u.message = none
         ∨ ∃ m, u.message = some m ∧ (m.text = none ∨ m.text = some "")) :
    handle_message k o u = [] := by
  unfold handle_message
  rcases h with h | ⟨m, hm, hx | hx⟩
  · rw [h]
  · rw [hm]
    simp [hx]
  · rw [hm]
    simp [hx]

/-- Witness for C9 at concrete inputs: an update with no message, and one
whose message has empty text. -/
theorem C9_guard_witness :
    handle_message true HttpOutcome.exc { message := none, effective_user := none }
      = [] :=
  C9_guard true HttpOutcome.exc { message := none, effective_user := none }
    (Or.inl rfl)

/-- C10: the returned result of `call_kimi_k2` does not depend on the
`user_id` argument: two calls with the same message and the same HTTP
outcome but different `user_id` values (including `none`) agree on
everything observable. -/
theorem C10_uid_independent (k : Bool) (t : String) (uid1 uid2 : Option Int)
    (o : HttpOutcome) :
    call_kimi_k2 k t uid1 o = call_kimi_k2 k t uid2 o := rfl

end KimiBot
